import Mathlib

/-!
Verification development for the ImVeo image-to-video web app.

The embedding below models, in order:
- the shared types (`AspectRatio`, `VideoState`) from `types.ts`;
- the Gemini service layer (`generateVeoVideo` and its polling loop) from
  `services/geminiService.ts`, with the remote operation snapshots supplied
  as an explicit environment;
- the workflow controller (`handleGenerate` and the dismiss button) from
  `App.tsx`, producing the exact sequence of `setVideoState` values together
  with counters for the external calls it performs;
- the `FileUpload` widget's two file-selection paths from
  `components/FileUpload.tsx`.

JavaScript truthiness on strings (`s || fallback`) is modelled by `jsOr` /
`jsOrOpt`, and `String.prototype.includes` by `strIncludes`.
-/

namespace ImVeo

/-- JS `s.includes(pat)`: `pat` occurs as a contiguous substring of `s`. -/
def strIncludes (s pat : String) : Bool := decide (pat.data <:+: s.data)

/-- JS `s || fallback` on strings: the empty string is falsy. -/
def jsOr (s fallback : String) : String := if s = "" then fallback else s

/-- JS `x?.m || fallback` where `x.m` is an optional string: `undefined`
and `""` are both falsy. -/
def jsOrOpt (s : Option String) (fallback : String) : String :=
  match s with
  | none => fallback
  | some v => if v = "" then fallback else v

/-- The `AspectRatio` enum from `types.ts`. -/
inductive AspectRatio where
  | LANDSCAPE
  | PORTRAIT
deriving DecidableEq, Repr

/-- String value of the `AspectRatio` enum members. -/
def AspectRatio.value : AspectRatio → String
  | .LANDSCAPE => "16:9"
  | .PORTRAIT => "9:16"

/-- The `VideoState` interface from `types.ts`: the workflow state object that the
controller exposes to the view layer. -/
structure VideoState where
  isLoading : Bool
  progressMessage : String
  videoUrl : Option String
  error : Option String
deriving DecidableEq, Repr

/-- A browser `File`: media type plus byte size (the only attributes the
upload widget inspects). -/
structure JsFile where
  type : String
  size : Nat
deriving DecidableEq, Repr

/-- Result of `fileToGenerativePart`: base64 data plus media type. -/
structure ImagePart where
  mimeType : String
  data : String
deriving DecidableEq, Repr

/-- The `error` payload of a remote operation; `message` may be absent. -/
structure OperationError where
  message : Option String
deriving DecidableEq, Repr

/-- The `video` field of a generated-video entry; `uri` may be absent. -/
structure VideoRef where
  uri : Option String
deriving DecidableEq, Repr

/-- One entry of `response.generatedVideos`. -/
structure GeneratedVideoEntry where
  video : Option VideoRef
deriving DecidableEq, Repr

/-- The `response` payload of a completed remote operation. -/
structure OperationResponse where
  generatedVideos : List GeneratedVideoEntry
deriving DecidableEq, Repr

/-- A remote operation handle snapshot, as returned by `generateVideos` /
`getVideosOperation`. -/
structure Operation where
  done : Bool
  error : Option OperationError
  response : Option OperationResponse
deriving DecidableEq, Repr

/-- The optional chain `operation.response?.generatedVideos?.[0]?.video?.uri`. -/
def opUri (op : Operation) : Option String :=
  op.response.bind fun r =>
    r.generatedVideos.head?.bind fun g =>
      g.video.bind fun v => v.uri

/-- The creation request built by `generateVeoVideo` (model name, prompt with
the JS `||` fallback, image payload, and fixed config values). -/
structure VideoRequest where
  model : String
  prompt : String
  imageBytes : String
  mimeType : String
  numberOfVideos : Nat
  resolution : String
  aspect : AspectRatio
deriving DecidableEq, Repr

/-- Builds the single `generateVideos` creation request exactly as
`generateVeoVideo` does. -/
def buildRequest (img : ImagePart) (prompt : String) (ar : AspectRatio) : VideoRequest :=
  { model := "veo-3.1-fast-generate-preview"
  , prompt := jsOr prompt "Animate this image cinematically"
  , imageBytes := img.data
  , mimeType := img.mimeType
  , numberOfVideos := 1
  , resolution := "720p"
  , aspect := ar }

/-- The `while (!operation.done)` polling loop: starting from the handle the
creation request returned and a (finite) stream of future snapshots, return
the handle the loop exits with (`none` when the stream is exhausted while the
loop still runs, i.e. the loop does not terminate within the stream) together
with the number of `getVideosOperation` status requests issued. -/
def pollLoopCount : Operation → List Operation → Option Operation × Nat
  | op, polls =>
    if op.done then (some op, 0)
    else
      match polls with
      | [] => (none, 0)
      | next :: rest =>
        let r := pollLoopCount next rest
        (r.1, r.2 + 1)

/-- Post-loop resolution in `generateVeoVideo`: error payload check, then the
optional-chain URI extraction with JS falsiness, then key appending. -/
def resolveOperation (op : Operation) (apiKey : String) : Except String String :=
  match op.error with
  | some e => Except.error ("Video generation failed: " ++ jsOrOpt e.message "Unknown error")
  | none =>
    match opUri op with
    | none => Except.error "No video URI returned from the API."
    | some uri =>
      if uri = "" then Except.error "No video URI returned from the API."
      else Except.ok (uri ++ "&key=" ++ apiKey)

/-- The service function `generateVeoVideo` from `geminiService.ts`: builds the creation request,
runs the polling loop over the environment-supplied snapshots, and resolves
the final handle. Returns the request sent, the number of status requests
issued, and the outcome (`none` when polling never observes `done`). -/
def generateVeoVideo (img : ImagePart) (prompt : String) (ar : AspectRatio)
    (apiKey : String) (initialOp : Operation) (polls : List Operation) :
    VideoRequest × Nat × Option (Except String String) :=
  let req := buildRequest img prompt ar
  match pollLoopCount initialOp polls with
  | (none, n) => (req, n, none)
  | (some fin, n) => (req, n, some (resolveOperation fin apiKey))

/-- The `window.aistudio` capability: whether a key is already selected and
whether each `openSelectKey` call would succeed (the second one, made from the
catch handler, has its outcome ignored by the code). -/
structure AIStudioCap where
  hasKey : Bool
  openSelectKeyOk : Bool
  reselectOk : Bool
deriving DecidableEq, Repr

/-- Environment of one `handleGenerate` run: the optional `window.aistudio`
capability, the outcome of `fileToGenerativePart`, the handle returned by the
creation request, the stream of polled snapshots, and the API key. -/
structure GenEnv where
  aistudio : Option AIStudioCap
  encode : Except String ImagePart
  initialOp : Operation
  polls : List Operation
  apiKey : String

/-- The state set by the first `setVideoState` in `handleGenerate`. -/
def loadingInit : VideoState :=
  { isLoading := true
  , progressMessage := "Initializing authentication..."
  , videoUrl := none
  , error := none }

/-- The state after the progress update preceding the service call. -/
def submitState : VideoState :=
  { loadingInit with progressMessage := "Uploading image & starting generation..." }

/-- The error-message signature the catch handler pattern-matches. -/
def entityNotFoundSig : String := "Requested entity was not found"

/-- The override message surfaced for the stale-credential case. -/
def apiKeyInvalidMsg : String :=
  "API Key session invalid. Please try generating again to select a new key."

/-- Message thrown when `openSelectKey` fails during the auth phase. -/
def keyRequiredMsg : String := "API Key selection is required to proceed."

/-- Fallback used when a caught error has no (non-empty) message. -/
def unexpectedErrorMsg : String := "An unexpected error occurred"

/-- The auth phase of `handleGenerate` (step 1): returns whether it passed,
the number of `hasSelectedApiKey` calls, and the number of auth-phase
`openSelectKey` calls. -/
def authPhase : Option AIStudioCap → Bool × Nat × Nat
  | none => (true, 0, 0)
  | some cap =>
    if cap.hasKey then (true, 1, 0)
    else if cap.openSelectKeyOk then (true, 1, 1)
    else (false, 1, 1)

/-- The catch handler of `handleGenerate`: applies the JS `||` fallback to the
message, pattern-matches the stale-credential signature (overriding the
surfaced error and invoking `openSelectKey` once more when `window.aistudio`
exists), otherwise surfaces the message as-is. Returns the state set and the
number of catch-phase `openSelectKey` calls. -/
def catchPhase (prev : VideoState) (rawMsg : String) (aistudio : Option AIStudioCap) :
    VideoState × Nat :=
  let errorMessage := jsOr rawMsg unexpectedErrorMsg
  if strIncludes errorMessage entityNotFoundSig then
    ({ prev with isLoading := false, error := some apiKeyInvalidMsg },
     if aistudio.isSome then 1 else 0)
  else
    ({ prev with isLoading := false, error := some errorMessage }, 0)

/-- Observable trace of one `handleGenerate` invocation: every state passed to
`setVideoState` in order, whether the invocation ran to completion (false when
the poll loop never observed `done`), counters for the external calls made
(`hasSelectedApiKey`, auth-phase `openSelectKey`, catch-phase `openSelectKey`),
the creation request sent (if any), and the number of status requests. -/
structure GenTrace where
  states : List VideoState
  completed : Bool
  authChecks : Nat
  selectKeyCalls : Nat
  reselectCalls : Nat
  request : Option VideoRequest
  statusRequests : Nat
deriving DecidableEq, Repr

/-- The controller action `handleGenerate` from `App.tsx`, as the trace of one invocation: early
return when no file is selected; otherwise the initial loading state, the auth
phase, the progress update, the service call, and on success or on any thrown
error the corresponding final `setVideoState`. -/
def handleGenerate (file : Option JsFile) (prompt : String) (ar : AspectRatio)
    (env : GenEnv) : GenTrace :=
  match file with
  | none =>
    { states := [], completed := true, authChecks := 0, selectKeyCalls := 0
    , reselectCalls := 0, request := none, statusRequests := 0 }
  | some _ =>
    let a := authPhase env.aistudio
    if a.1 then
      match env.encode with
      | Except.error msg =>
        let c := catchPhase submitState msg env.aistudio
        { states := [loadingInit, submitState, c.1], completed := true
        , authChecks := a.2.1, selectKeyCalls := a.2.2, reselectCalls := c.2
        , request := none, statusRequests := 0 }
      | Except.ok img =>
        match generateVeoVideo img prompt ar env.apiKey env.initialOp env.polls with
        | (req, n, none) =>
          { states := [loadingInit, submitState], completed := false
          , authChecks := a.2.1, selectKeyCalls := a.2.2, reselectCalls := 0
          , request := some req, statusRequests := n }
        | (req, n, some (Except.ok url)) =>
          { states := [loadingInit, submitState,
              { isLoading := false, progressMessage := "Done!"
              , videoUrl := some url, error := none }]
          , completed := true, authChecks := a.2.1, selectKeyCalls := a.2.2
          , reselectCalls := 0, request := some req, statusRequests := n }
        | (req, n, some (Except.error msg)) =>
          let c := catchPhase submitState msg env.aistudio
          { states := [loadingInit, submitState, c.1], completed := true
          , authChecks := a.2.1, selectKeyCalls := a.2.2, reselectCalls := c.2
          , request := some req, statusRequests := n }
    else
      let c := catchPhase loadingInit keyRequiredMsg env.aistudio
      { states := [loadingInit, c.1], completed := true
      , authChecks := a.2.1, selectKeyCalls := a.2.2, reselectCalls := c.2
      , request := none, statusRequests := 0 }

/-- The workflow state current after an invocation whose trace is `tr`, when
the state before it was `s` (the last state set, or `s` when none was). -/
def finalVS (s : VideoState) (tr : GenTrace) : VideoState :=
  tr.states.getLast?.getD s

/-- The dismiss button's `onClick`: clears only the `error` field. -/
def dismissVS (s : VideoState) : VideoState := { s with error := none }

/-- The full `App` component state: the three input `useState` hooks plus the
workflow state. -/
structure AppState where
  file : Option JsFile
  prompt : String
  aspect : AspectRatio
  videoState : VideoState
deriving DecidableEq, Repr

/-- The dismiss button's effect on the whole component state: only
`videoState.error` is written. -/
def dismissApp (st : AppState) : AppState :=
  { st with videoState := dismissVS st.videoState }

/-- Initial workflow state from the `useState` initializer in `App.tsx`. -/
def initialVideoState : VideoState :=
  { isLoading := false, progressMessage := "", videoUrl := none, error := none }

/-- Model of `FileUpload.handleFileChange`: selects the first file of the input's file
list unconditionally. Returns the file passed to `onFileSelect`, if any. -/
def handleFileChange (files : List JsFile) : Option JsFile :=
  files.head?

/-- Model of `FileUpload.handleDrop`: selects the first dropped file only when its
media type starts with `image/`. Returns the file passed to `onFileSelect`,
if any. -/
def handleDrop (files : List JsFile) : Option JsFile :=
  match files.head? with
  | none => none
  | some f => if "image/".isPrefixOf f.type then some f else none

/-- Workflow states reachable through the controller's transitions: the
initial state, every state set during some `handleGenerate` invocation, and
the result of dismissing a reachable state. -/
inductive ReachableVS : VideoState → Prop
  | init : ReachableVS initialVideoState
  | generate (file : Option JsFile) (prompt : String) (ar : AspectRatio)
      (env : GenEnv) (s : VideoState)
      (h : s ∈ (handleGenerate file prompt ar env).states) : ReachableVS s
  | dismiss (s : VideoState) (h : ReachableVS s) : ReachableVS (dismissVS s)

/-- Number of the four view conditions that hold of a workflow state: busy,
has-result, has-error, idle (idle being none of the other three). -/
def stateFlagCount (s : VideoState) : Nat :=
  (cond s.isLoading 1 0) + (cond s.videoUrl.isSome 1 0) + (cond s.error.isSome 1 0) +
    (cond (!s.isLoading && !s.videoUrl.isSome && !s.error.isSome) 1 0)

/-- Exactly one of {busy, has-result, has-error, idle} holds. -/
def exactlyOneOfFour (s : VideoState) : Prop := stateFlagCount s = 1

/-- Sample encoded image, used to evaluate the model on concrete runs. -/
def img0 : ImagePart := { mimeType := "image/jpeg", data := "QUJD" }

/-- Sample selected file. -/
def file0 : JsFile := { type := "image/jpeg", size := 12345 }

/-- A not-yet-done operation snapshot. -/
def opPending : Operation := { done := false, error := none, response := none }

/-- A done snapshot carrying a result URI. -/
def opSuccess : Operation :=
  { done := true, error := none
  , response := some { generatedVideos := [{ video := some { uri := some "https://x/video1" } }] } }

/-- A done snapshot whose error message matches the stale-credential signature. -/
def opFailedSig : Operation :=
  { done := true, error := some { message := some "Requested entity was not found" }
  , response := none }

/-- A done snapshot with an ordinary error message. -/
def opFailedBoom : Operation :=
  { done := true, error := some { message := some "boom" }, response := none }

/-- A done snapshot with neither error nor result. -/
def opNoResult : Operation := { done := true, error := none, response := none }

/-- Environment for a successful run (key selected, two pending polls). -/
def envSuccess : GenEnv :=
  { aistudio := some { hasKey := true, openSelectKeyOk := true, reselectOk := true }
  , encode := Except.ok img0, initialOp := opPending
  , polls := [opPending, opSuccess], apiKey := "KEY" }

/-- Environment for a run failing with the stale-credential signature. -/
def envFailedSig : GenEnv :=
  { aistudio := some { hasKey := true, openSelectKeyOk := true, reselectOk := true }
  , encode := Except.ok img0, initialOp := opPending
  , polls := [opFailedSig], apiKey := "KEY" }

/-- Environment for a run failing with an ordinary error, no aistudio object. -/
def envFailedBoom : GenEnv :=
  { aistudio := none, encode := Except.ok img0, initialOp := opFailedBoom
  , polls := [], apiKey := "KEY" }

/-- Sample component state sitting in the Failed condition. -/
def appFailed : AppState :=
  { file := some file0, prompt := "my prompt", aspect := AspectRatio.LANDSCAPE
  , videoState :=
      { isLoading := false, progressMessage := "Uploading image & starting generation..."
      , videoUrl := none, error := some "boom" } }

/-! ## Helper lemmas -/

lemma strIncludes_append_right (a b : String) : strIncludes (a ++ b) b = true := by
  simp only [strIncludes, decide_eq_true_eq, String.data_append]
  exact (List.suffix_append a.data b.data).isInfix

lemma strIncludes_of_append_left (a b : String) : strIncludes (a ++ b) a = true := by
  simp only [strIncludes, decide_eq_true_eq, String.data_append]
  exact (List.prefix_append a.data b.data).isInfix

lemma strIncludes_empty_sig : strIncludes "" entityNotFoundSig = false := by decide

/-- One-step unfolding of the polling loop. -/
lemma pollLoopCount_eq (op : Operation) (polls : List Operation) :
    pollLoopCount op polls =
      if op.done then (some op, 0)
      else
        match polls with
        | [] => (none, 0)
        | next :: rest => ((pollLoopCount next rest).1, (pollLoopCount next rest).2 + 1) := by
  cases polls <;> rfl

/-- The polling loop exits exactly at the first snapshot reporting done,
having issued one status request per not-done snapshot before it. -/
lemma pollLoopCount_spec (op : Operation) (polls : List Operation)
    (fin : Operation) (n : Nat)
    (h : pollLoopCount op polls = (some fin, n)) :
    fin.done = true ∧ (op :: polls).get? n = some fin ∧
      ∀ i, i < n → ∀ g, (op :: polls).get? i = some g → g.done = false := by
  induction polls generalizing op n with
  | nil =>
    rw [pollLoopCount_eq] at h
    by_cases hd : op.done = true
    · simp only [hd, if_true, Prod.mk.injEq, Option.some.injEq] at h
      obtain ⟨rfl, rfl⟩ := h
      refine ⟨hd, rfl, ?_⟩
      intro i hi
      omega
    · simp only [hd, if_false, Prod.mk.injEq] at h
      simp [Bool.not_eq_true] at hd
      simp [hd] at h
  | cons next rest ih =>
    rw [pollLoopCount_eq] at h
    by_cases hd : op.done = true
    · simp only [hd, if_true, Prod.mk.injEq, Option.some.injEq] at h
      obtain ⟨rfl, rfl⟩ := h
      refine ⟨hd, rfl, ?_⟩
      intro i hi
      omega
    · simp only [Bool.not_eq_true] at hd
      simp only [hd, Bool.false_eq_true, if_false, Prod.mk.injEq] at h
      obtain ⟨h1, h2⟩ := h
      have hp : pollLoopCount next rest = (some fin, (pollLoopCount next rest).2) := by
        rw [← h1]
      obtain ⟨hdone, hget, hprev⟩ := ih next _ hp
      subst h2
      refine ⟨hdone, hget, ?_⟩
      intro i hi g hg
      match i with
      | 0 =>
        simp only [List.get?_cons_zero, Option.some.injEq] at hg
        rw [← hg]
        exact hd
      | j + 1 =>
        exact hprev j (by omega) g hg

lemma catchPhase_fst (prev : VideoState) (msg : String) (a : Option AIStudioCap) :
    ∃ e, (catchPhase prev msg a).1 = { prev with isLoading := false, error := some e } := by
  unfold catchPhase
  dsimp only
  split
  · exact ⟨apiKeyInvalidMsg, rfl⟩
  · exact ⟨jsOr msg unexpectedErrorMsg, rfl⟩

lemma exactlyOne_catchPhase (prev : VideoState) (hurl : prev.videoUrl = none)
    (msg : String) (a : Option AIStudioCap) :
    exactlyOneOfFour (catchPhase prev msg a).1 := by
  obtain ⟨e, he⟩ := catchPhase_fst prev msg a
  rw [he]
  simp [exactlyOneOfFour, stateFlagCount, hurl]

/-- Shape of a run whose service call resolves to an error. -/
lemma handleGenerate_service_err (f : JsFile) (prompt : String) (ar : AspectRatio)
    (env : GenEnv) (img : ImagePart) (fin : Operation) (n : Nat) (msg : String)
    (hauth : (authPhase env.aistudio).1 = true)
    (henc : env.encode = Except.ok img)
    (hpoll : pollLoopCount env.initialOp env.polls = (some fin, n))
    (hres : resolveOperation fin env.apiKey = Except.error msg) :
    handleGenerate (some f) prompt ar env =
      { states := [loadingInit, submitState, (catchPhase submitState msg env.aistudio).1]
      , completed := true
      , authChecks := (authPhase env.aistudio).2.1
      , selectKeyCalls := (authPhase env.aistudio).2.2
      , reselectCalls := (catchPhase submitState msg env.aistudio).2
      , request := some (buildRequest img prompt ar)
      , statusRequests := n } := by
  simp only [handleGenerate, generateVeoVideo, henc, hauth, hpoll, hres, if_true]

/-- Shape of a run whose service call resolves to a URL. -/
lemma handleGenerate_service_ok (f : JsFile) (prompt : String) (ar : AspectRatio)
    (env : GenEnv) (img : ImagePart) (fin : Operation) (n : Nat) (url : String)
    (hauth : (authPhase env.aistudio).1 = true)
    (henc : env.encode = Except.ok img)
    (hpoll : pollLoopCount env.initialOp env.polls = (some fin, n))
    (hres : resolveOperation fin env.apiKey = Except.ok url) :
    handleGenerate (some f) prompt ar env =
      { states := [loadingInit, submitState,
          { isLoading := false, progressMessage := "Done!"
          , videoUrl := some url, error := none }]
      , completed := true
      , authChecks := (authPhase env.aistudio).2.1
      , selectKeyCalls := (authPhase env.aistudio).2.2
      , reselectCalls := 0
      , request := some (buildRequest img prompt ar)
      , statusRequests := n } := by
  simp only [handleGenerate, generateVeoVideo, henc, hauth, hpoll, hres, if_true]

/-- Every workflow state set during an invocation of the controller satisfies
the exclusivity invariant. -/
lemma handleGenerate_states_exclusive (file : Option JsFile) (prompt : String)
    (ar : AspectRatio) (env : GenEnv) (s : VideoState)
    (h : s ∈ (handleGenerate file prompt ar env).states) : exactlyOneOfFour s := by
  have hload : exactlyOneOfFour loadingInit := rfl
  have hsub : exactlyOneOfFour submitState := rfl
  match file with
  | none => simp [handleGenerate] at h
  | some f =>
    simp only [handleGenerate] at h
    split at h
    · -- auth phase passed
      split at h
      · -- encode failed
        simp only [List.mem_cons, List.not_mem_nil, or_false] at h
        rcases h with rfl | rfl | rfl
        · exact hload
        · exact hsub
        · exact exactlyOne_catchPhase submitState rfl _ _
      · -- encode ok: split on the service outcome
        split at h
        · -- poll loop never saw done
          simp only [List.mem_cons, List.not_mem_nil, or_false] at h
          rcases h with rfl | rfl
          · exact hload
          · exact hsub
        · -- success
          simp only [List.mem_cons, List.not_mem_nil, or_false] at h
          rcases h with rfl | rfl | rfl
          · exact hload
          · exact hsub
          · exact rfl
        · -- service error
          simp only [List.mem_cons, List.not_mem_nil, or_false] at h
          rcases h with rfl | rfl | rfl
          · exact hload
          · exact hsub
          · exact exactlyOne_catchPhase submitState rfl _ _
    · -- auth phase failed
      simp only [List.mem_cons, List.not_mem_nil, or_false] at h
      rcases h with rfl | rfl
      · exact hload
      · exact exactlyOne_catchPhase loadingInit rfl _ _

/-! ## Claim theorems -/

/-- Claim C1: every workflow state reachable through the controller's
transitions (start, progress update, success, any failure, dismiss) satisfies
exactly one of the four view conditions: busy, has-result, has-error, idle. -/
theorem reachable_state_exclusive (s : VideoState) (h : ReachableVS s) :
    exactlyOneOfFour s := by
  induction h with
  | init => rfl
  | generate file prompt ar env s hmem =>
    exact handleGenerate_states_exclusive file prompt ar env s hmem
  | dismiss s hs ih =>
    rcases s with ⟨l, m, u, e⟩
    cases l <;> rcases u with _ | u <;> rcases e with _ | e <;>
      simp_all [dismissVS, exactlyOneOfFour, stateFlagCount]

/-- Witness for C1 at the initial state. -/
theorem reachable_state_exclusive_w :
    ReachableVS initialVideoState ∧ exactlyOneOfFour initialVideoState :=
  ⟨ReachableVS.init, reachable_state_exclusive initialVideoState ReachableVS.init⟩

/-- Claim C2: whenever the service call completes, the handle the poll loop
exited with reports done, it is the first snapshot reporting done, and the
loop issued exactly one status request per earlier (not-done) snapshot — so
it never completes while the latest handle is not done, and stops polling at
the first done handle. -/
theorem poll_stops_at_first_done (img : ImagePart) (prompt : String)
    (ar : AspectRatio) (key : String) (op : Operation) (polls : List Operation)
    (req : VideoRequest) (n : Nat) (res : Except String String)
    (h : generateVeoVideo img prompt ar key op polls = (req, n, some res)) :
    ∃ fin, pollLoopCount op polls = (some fin, n) ∧ fin.done = true ∧
      (op :: polls).get? n = some fin ∧
      ∀ i, i < n → ∀ g, (op :: polls).get? i = some g → g.done = false := by
  unfold generateVeoVideo at h
  cases hp : pollLoopCount op polls with
  | mk o m =>
    cases o with
    | none => rw [hp] at h; simp at h
    | some fin =>
      rw [hp] at h
      simp only [Prod.mk.injEq] at h
      obtain ⟨-, rfl, -⟩ := h
      obtain ⟨h1, h2, h3⟩ := pollLoopCount_spec op polls fin m hp
      exact ⟨fin, rfl, h1, h2, h3⟩

/-- Witness for C2 on a pending-pending-done snapshot sequence. -/
theorem poll_stops_at_first_done_w :
    ∃ fin, pollLoopCount opPending [opPending, opSuccess] = (some fin, 2) ∧
      fin.done = true ∧
      (opPending :: [opPending, opSuccess]).get? 2 = some fin ∧
      ∀ i, i < 2 → ∀ g,
        (opPending :: [opPending, opSuccess]).get? i = some g → g.done = false :=
  poll_stops_at_first_done img0 "" AspectRatio.LANDSCAPE "KEY" opPending
    [opPending, opSuccess] (buildRequest img0 "" AspectRatio.LANDSCAPE) 2
    (Except.ok "https://x/video1&key=KEY") rfl

/-- Claim C3: the creation request carries the fixed fallback prompt when the
caller's prompt is empty, and the caller's prompt unmodified otherwise. -/
theorem prompt_fallback_on_submit (img : ImagePart) (ar : AspectRatio)
    (key : String) (op : Operation) (polls : List Operation) :
    ((generateVeoVideo img "" ar key op polls).1).prompt =
      "Animate this image cinematically" ∧
    ∀ p : String, p ≠ "" → ((generateVeoVideo img p ar key op polls).1).prompt = p := by
  have hfst : ∀ p : String, (generateVeoVideo img p ar key op polls).1 =
      buildRequest img p ar := by
    intro p
    unfold generateVeoVideo
    cases hp : pollLoopCount op polls with
    | mk o m => cases o <;> rfl
  constructor
  · rw [hfst]
    rfl
  · intro p hp
    rw [hfst]
    simp [buildRequest, jsOr, hp]

/-- Witness for C3: empty prompt falls back, a concrete prompt passes through. -/
theorem prompt_fallback_on_submit_w :
    ((generateVeoVideo img0 "" AspectRatio.LANDSCAPE "KEY" opPending []).1).prompt =
      "Animate this image cinematically" ∧
    ((generateVeoVideo img0 "pan left" AspectRatio.LANDSCAPE "KEY" opPending []).1).prompt =
      "pan left" :=
  ⟨(prompt_fallback_on_submit img0 AspectRatio.LANDSCAPE "KEY" opPending []).1,
   (prompt_fallback_on_submit img0 AspectRatio.LANDSCAPE "KEY" opPending []).2
     "pan left" (by decide)⟩

/-- Claim C4: a final handle with done and a populated error payload makes the
service surface a generation failure whose message carries the remote-supplied
message (with the fixed fallback text substituted when the service omits one),
and the workflow ends in the Failed condition (error set, no result). -/
theorem failed_handle_surfaces_remote_message (fin : Operation)
    (err : OperationError) (f : JsFile) (prompt : String) (ar : AspectRatio)
    (env : GenEnv) (img : ImagePart) (n : Nat) (s : VideoState)
    (hdone : fin.done = true) (herr : fin.error = some err)
    (hauth : (authPhase env.aistudio).1 = true)
    (henc : env.encode = Except.ok img)
    (hpoll : pollLoopCount env.initialOp env.polls = (some fin, n)) :
    resolveOperation fin env.apiKey =
      Except.error ("Video generation failed: " ++ jsOrOpt err.message "Unknown error") ∧
    (∀ m, err.message = some m → m ≠ "" →
      strIncludes ("Video generation failed: " ++ jsOrOpt err.message "Unknown error")
        m = true) ∧
    ((err.message = none ∨ err.message = some "") →
      jsOrOpt err.message "Unknown error" = "Unknown error") ∧
    (finalVS s (handleGenerate (some f) prompt ar env)).error.isSome = true ∧
    (finalVS s (handleGenerate (some f) prompt ar env)).videoUrl = none := by
  have hres : resolveOperation fin env.apiKey =
      Except.error ("Video generation failed: " ++ jsOrOpt err.message "Unknown error") := by
    unfold resolveOperation
    rw [herr]
  refine ⟨hres, ?_, ?_, ?_, ?_⟩
  · intro m hm hne
    rw [hm]
    simp only [jsOrOpt, hne, if_false]
    exact strIncludes_append_right _ m
  · rintro (hm | hm) <;> simp [jsOrOpt, hm]
  · rw [handleGenerate_service_err f prompt ar env img fin n _ hauth henc hpoll hres]
    obtain ⟨e, he⟩ := catchPhase_fst submitState
      ("Video generation failed: " ++ jsOrOpt err.message "Unknown error") env.aistudio
    simp [finalVS, he]
  · rw [handleGenerate_service_err f prompt ar env img fin n _ hauth henc hpoll hres]
    obtain ⟨e, he⟩ := catchPhase_fst submitState
      ("Video generation failed: " ++ jsOrOpt err.message "Unknown error") env.aistudio
    have hurl : (catchPhase submitState
        ("Video generation failed: " ++ jsOrOpt err.message "Unknown error")
        env.aistudio).1.videoUrl = none := by
      rw [he]
      rfl
    simp [finalVS, hurl]

/-- Witness for C4 on a done handle reporting the message "boom". -/
theorem failed_handle_surfaces_remote_message_w :
    resolveOperation opFailedBoom "KEY" =
      Except.error ("Video generation failed: " ++
        jsOrOpt (OperationError.mk (some "boom")).message "Unknown error") ∧
    (∀ m, (OperationError.mk (some "boom")).message = some m → m ≠ "" →
      strIncludes ("Video generation failed: " ++
        jsOrOpt (OperationError.mk (some "boom")).message "Unknown error") m = true) ∧
    (((OperationError.mk (some "boom")).message = none ∨
      (OperationError.mk (some "boom")).message = some "") →
      jsOrOpt (OperationError.mk (some "boom")).message "Unknown error" = "Unknown error") ∧
    (finalVS initialVideoState
      (handleGenerate (some file0) "p" AspectRatio.LANDSCAPE envFailedBoom)).error.isSome
        = true ∧
    (finalVS initialVideoState
      (handleGenerate (some file0) "p" AspectRatio.LANDSCAPE envFailedBoom)).videoUrl
        = none :=
  failed_handle_surfaces_remote_message opFailedBoom (OperationError.mk (some "boom"))
    file0 "p" AspectRatio.LANDSCAPE envFailedBoom img0 0 initialVideoState
    rfl rfl rfl rfl rfl

/-- Claim C5: a done handle with no error payload and no result locator makes
the service fail with the dedicated no-result message, which is a class of its
own: it does not carry the generic failure text, while every generic failure
does. -/
theorem no_result_distinct_failure (fin : Operation) (key : String)
    (hdone : fin.done = true) (herr : fin.error = none)
    (huri : opUri fin = none) :
    resolveOperation fin key = Except.error "No video URI returned from the API." ∧
    strIncludes "No video URI returned from the API." "Video generation failed" = false ∧
    ∀ m : String,
      strIncludes ("Video generation failed: " ++ m) "Video generation failed" = true := by
  refine ⟨?_, by decide, ?_⟩
  · unfold resolveOperation
    rw [herr, huri]
  · intro m
    unfold strIncludes
    apply decide_eq_true
    rw [String.data_append]
    have hlit : ("Video generation failed: ").data =
        ("Video generation failed").data ++ (": ").data := by decide
    rw [hlit, List.append_assoc]
    exact (List.prefix_append _ _).isInfix

/-- Witness for C5 on a done handle with empty payloads. -/
theorem no_result_distinct_failure_w :
    resolveOperation opNoResult "KEY" =
      Except.error "No video URI returned from the API." ∧
    strIncludes "No video URI returned from the API." "Video generation failed" = false ∧
    ∀ m : String,
      strIncludes ("Video generation failed: " ++ m) "Video generation failed" = true :=
  no_result_distinct_failure opNoResult "KEY" rfl rfl rfl

/-- Claim C6: when the generation failure message contains the entity-not-found
signature and the aistudio capability is present, the controller surfaces
exactly the fixed API-key-invalid message and invokes the credential
reselection capability exactly once from the catch handler, whatever the
outcome of that invocation would be. -/
theorem stale_credential_override (f : JsFile) (prompt : String)
    (ar : AspectRatio) (env : GenEnv) (cap : AIStudioCap) (img : ImagePart)
    (fin : Operation) (n : Nat) (msg : String) (s : VideoState)
    (hai : env.aistudio = some cap)
    (hauth : (authPhase env.aistudio).1 = true)
    (henc : env.encode = Except.ok img)
    (hpoll : pollLoopCount env.initialOp env.polls = (some fin, n))
    (hres : resolveOperation fin env.apiKey = Except.error msg)
    (hsig : strIncludes msg entityNotFoundSig = true) :
    (finalVS s (handleGenerate (some f) prompt ar env)).error = some apiKeyInvalidMsg ∧
    (handleGenerate (some f) prompt ar env).reselectCalls = 1 := by
  have hne : msg ≠ "" := by
    intro hmsg
    rw [hmsg, strIncludes_empty_sig] at hsig
    exact Bool.false_ne_true hsig
  have hcatch : catchPhase submitState msg env.aistudio =
      ({ submitState with isLoading := false, error := some apiKeyInvalidMsg }, 1) := by
    unfold catchPhase
    simp only [jsOr, hne, if_false, hsig, if_true, hai, Option.isSome_some]
  rw [handleGenerate_service_err f prompt ar env img fin n msg hauth henc hpoll hres]
  simp [finalVS, hcatch]

/-- Witness for C6 on the spec's example handle sequence. -/
theorem stale_credential_override_w :
    (finalVS initialVideoState
      (handleGenerate (some file0) "p" AspectRatio.LANDSCAPE envFailedSig)).error =
        some apiKeyInvalidMsg ∧
    (handleGenerate (some file0) "p" AspectRatio.LANDSCAPE envFailedSig).reselectCalls
      = 1 :=
  stale_credential_override file0 "p" AspectRatio.LANDSCAPE envFailedSig
    (AIStudioCap.mk true true true) img0 opFailedSig 1
    "Video generation failed: Requested entity was not found" initialVideoState
    rfl rfl rfl rfl rfl (by decide)

/-- Claim C7: when the final handle carries a (non-empty) result locator, the
service returns it with the API key appended as a query parameter, and the
workflow ends with exactly that locator as the surfaced result and no error. -/
theorem success_result_shaping (f : JsFile) (prompt : String) (ar : AspectRatio)
    (env : GenEnv) (img : ImagePart) (fin : Operation) (n : Nat) (u : String)
    (s : VideoState)
    (hauth : (authPhase env.aistudio).1 = true)
    (henc : env.encode = Except.ok img)
    (hpoll : pollLoopCount env.initialOp env.polls = (some fin, n))
    (herr : fin.error = none)
    (huri : opUri fin = some u)
    (hu : u ≠ "") :
    resolveOperation fin env.apiKey = Except.ok (u ++ "&key=" ++ env.apiKey) ∧
    finalVS s (handleGenerate (some f) prompt ar env) =
      { isLoading := false, progressMessage := "Done!"
      , videoUrl := some (u ++ "&key=" ++ env.apiKey), error := none } := by
  have hres : resolveOperation fin env.apiKey =
      Except.ok (u ++ "&key=" ++ env.apiKey) := by
    unfold resolveOperation
    rw [herr, huri]
    simp [hu]
  refine ⟨hres, ?_⟩
  rw [handleGenerate_service_ok f prompt ar env img fin n _ hauth henc hpoll hres]
  simp [finalVS]

/-- Witness for C7 on the spec's example run (empty prompt, landscape, two
pending polls then a done handle with a URI). -/
theorem success_result_shaping_w :
    resolveOperation opSuccess "KEY" =
      Except.ok ("https://x/video1" ++ "&key=" ++ "KEY") ∧
    finalVS initialVideoState
        (handleGenerate (some file0) "" AspectRatio.LANDSCAPE envSuccess) =
      { isLoading := false, progressMessage := "Done!"
      , videoUrl := some ("https://x/video1" ++ "&key=" ++ "KEY"), error := none } :=
  success_result_shaping file0 "" AspectRatio.LANDSCAPE envSuccess img0 opSuccess 2
    "https://x/video1" initialVideoState rfl rfl rfl rfl rfl (by decide)

/-- Claim C8: invoking the start action with no selected image performs no
transition at all: no state is set (the workflow state stays whatever it was),
no authentication check or key-selection call is made, and no remote request
of either kind is issued. -/
theorem no_file_no_transition (prompt : String) (ar : AspectRatio) (env : GenEnv)
    (s : VideoState) :
    handleGenerate none prompt ar env =
      { states := [], completed := true, authChecks := 0, selectKeyCalls := 0
      , reselectCalls := 0, request := none, statusRequests := 0 } ∧
    finalVS s (handleGenerate none prompt ar env) = s :=
  ⟨rfl, rfl⟩

/-- Claim C9: dismissing a Failed state clears only the error field of the
workflow state, returning it to the idle condition, and leaves the selected
file, the prompt and the aspect ratio untouched. -/
theorem dismiss_clears_only_error (st : AppState) (e : String)
    (herr : st.videoState.error = some e)
    (hload : st.videoState.isLoading = false)
    (hurl : st.videoState.videoUrl = none) :
    (dismissApp st).file = st.file ∧
    (dismissApp st).prompt = st.prompt ∧
    (dismissApp st).aspect = st.aspect ∧
    (dismissApp st).videoState.progressMessage = st.videoState.progressMessage ∧
    (dismissApp st).videoState = { st.videoState with error := none } ∧
    ((dismissApp st).videoState.isLoading = false ∧
     (dismissApp st).videoState.videoUrl = none ∧
     (dismissApp st).videoState.error = none) := by
  refine ⟨rfl, rfl, rfl, rfl, rfl, ?_, ?_, rfl⟩
  · exact hload
  · exact hurl

/-- Witness for C9 on a concrete Failed component state. -/
theorem dismiss_clears_only_error_w :
    (dismissApp appFailed).file = appFailed.file ∧
    (dismissApp appFailed).prompt = appFailed.prompt ∧
    (dismissApp appFailed).aspect = appFailed.aspect ∧
    (dismissApp appFailed).videoState.progressMessage =
      appFailed.videoState.progressMessage ∧
    (dismissApp appFailed).videoState = { appFailed.videoState with error := none } ∧
    ((dismissApp appFailed).videoState.isLoading = false ∧
     (dismissApp appFailed).videoState.videoUrl = none ∧
     (dismissApp appFailed).videoState.error = none) :=
  dismiss_clears_only_error appFailed "boom" rfl rfl rfl

/-- Claim C10: the file-input change path hands the first listed file to
onFileSelect whatever its media type or size, while the drag-and-drop path
hands it over exactly when its media type starts with the image prefix; no
size bound is checked on either path (the file's size is arbitrary here). -/
theorem upload_paths_filtering (f : JsFile) (rest : List JsFile) :
    handleFileChange (f :: rest) = some f ∧
    handleDrop (f :: rest) =
      (if "image/".isPrefixOf f.type then some f else none) ∧
    handleFileChange [] = none ∧
    handleDrop [] = none :=
  ⟨rfl, rfl, rfl, rfl⟩

end ImVeo
